import Mathlib

/-!
# Shallow embedding of the onchainkit transaction/swap lifecycle core

This file embeds the lifecycle state management of the repository's
`TransactionProvider` (src/transaction/components/TransactionProvider.tsx)
and the swap provider (whose implementation is exercised by the test suite
in the sources), and proves properties about status transitions, callback
emission, error classification and amount formatting.
-/

namespace OnchainKit

/-- A token as used by the swap subsystem (address, symbol, name, chainId,
decimals, image URI). Field values used in witnesses come from the mock
tokens appearing verbatim in the test suite. -/
structure Token where
  address : String
  symbol : String
  name : String
  chainId : Nat
  decimals : Nat
  image : String
deriving Repr, DecidableEq

/-- The `statusData` payload of an `error` lifecycle status:
`{ code, error, message }`. -/
structure SwapErrorData where
  code : String
  error : String
  message : String
deriving Repr, DecidableEq

/-- The `statusData` payload of an `amountChange` lifecycle status. -/
structure AmountChangeData where
  amountFrom : String
  amountTo : String
  isMissingRequiredField : Bool
  tokenFrom : Option Token
  tokenTo : Option Token
deriving Repr, DecidableEq

/-- The lifecycle status tagged variant: exactly one variant is active at a
time (`statusName` plus the matching `statusData` shape). -/
inductive LifeCycleStatus where
  | init (isMissingRequiredField : Bool)
  | amountChange (data : AmountChangeData)
  | transactionPending
  | transactionApproved (transactionHash : String) (transactionType : String)
  | success (receipts : List String)
  | error (data : SwapErrorData)
deriving Repr, DecidableEq

/-- A transaction receipt, treated as opaque confirmation data. -/
structure TransactionReceipt where
  raw : String
deriving Repr, DecidableEq

/-- A thrown JavaScript value as inspected by the error-classification code:
whether it is an `Error` instance, its `message`, and `cause?.name`. -/
structure JsThrown where
  isErrorInstance : Bool
  message : String
  causeName : Option String
deriving Repr, DecidableEq

/-! ## TransactionProvider: lifecycle emitter effect

Embeds the `useEffect` at TransactionProvider.tsx lines 155-168: when the
status name is `error` it calls `onError` with the status data, and it then
calls `onStatus` with the full status, on every run. `onSuccess` is never
called from this effect (it lives in a separate receipt-driven effect). -/

/-- A single host-visible callback invocation of the transaction provider. -/
inductive CallbackEvent where
  | onError (data : SwapErrorData)
  | onStatus (status : LifeCycleStatus)
  | onSuccess (receipts : List TransactionReceipt)
deriving Repr, DecidableEq

/-- One run of the lifecycle emitter effect for the current status `s`
(TransactionProvider.tsx 155-168): emit `onError` with the error payload
when `s` is an `error` status, then always emit `onStatus s`. -/
def lifecycleEmitterEffect (s : LifeCycleStatus) : List CallbackEvent :=
  (match s with
   | .error d => [CallbackEvent.onError d]
   | _ => []) ++ [CallbackEvent.onStatus s]

def countOnError (evs : List CallbackEvent) : Nat :=
  (evs.filter fun e => match e with | .onError _ => true | _ => false).length

def countOnStatus (evs : List CallbackEvent) : Nat :=
  (evs.filter fun e => match e with | .onStatus _ => true | _ => false).length

def countOnSuccess (evs : List CallbackEvent) : Nat :=
  (evs.filter fun e => match e with | .onSuccess _ => true | _ => false).length

/-! ## TransactionProvider: render/effect scheduling model

`setLifeCycleStatus` is the raw `useState` setter (TransactionProvider.tsx
72-75) and the emitter above is a `useEffect` whose dependency array
contains the status object (and its `statusName`/`statusData`). React
compares both the state update and the effect dependencies with
`Object.is`: setting the state to the very object it already holds bails
out without re-rendering or re-running effects, while setting a *new*
object (even one with identical contents) re-renders and re-runs the
effect. We model object identity with an explicit reference id. -/

/-- A status object reference: identity (`refId`) plus contents (`val`).
Two structurally equal statuses may live in distinct objects. -/
structure StatusRef where
  refId : Nat
  val : LifeCycleStatus
deriving Repr, DecidableEq

/-- The provider state observable by the emitter effect: the currently
stored status object. -/
structure ProviderState where
  status : StatusRef
deriving Repr, DecidableEq

/-- Processing of one `setLifeCycleStatus` call in its own render cycle:
if the new status is the same object as the stored one (`Object.is`),
React bails out and the emitter effect does not re-run; otherwise the
component re-renders with the new status and the emitter effect runs
(its `lifeCycleStatus` dependency changed). -/
def applySetLifeCycleStatus (st : ProviderState) (next : StatusRef) :
    ProviderState × List CallbackEvent :=
  if next.refId = st.status.refId then (st, [])
  else ({ status := next }, lifecycleEmitterEffect next.val)

/-- Process a sequence of `setLifeCycleStatus` calls, collecting every
callback invocation in order. -/
def runSetCalls (st : ProviderState) (calls : List StatusRef) :
    ProviderState × List CallbackEvent :=
  calls.foldl
    (fun acc c =>
      let r := applySetLifeCycleStatus acc.1 c
      (r.1, acc.2 ++ r.2))
    (st, [])

/-! ## TransactionProvider: submission failure classification

Embeds `handleSubmitErrors` (TransactionProvider.tsx 276-301) together with
`fallbackToSingleTransaction` (223-239) and the unit selection
`contracts || calls || []` (225). A submission attempt for one call or
contract entry is abstracted as an oracle `submit : Nat → Except JsThrown
String` returning a transaction hash or the thrown value. -/

/-- Modelled from the spec: the `METHOD_NOT_SUPPORTED_ERROR_SUBSTRING`
constant lives in the transaction constants module, which is not among the
sources; the spec only fixes that a known error-message substring detects
the unsupported-batching failure. The concrete value is irrelevant to the
claims, which quantify over messages containing it. -/
def METHOD_NOT_SUPPORTED_ERROR_SUBSTRING : String :=
  "this request method is not supported"

/-- Modelled from the spec: the `GENERIC_ERROR_MESSAGE` constant from the
transaction constants module, not among the sources; the spec only fixes
that a generic failure message exists. -/
def GENERIC_ERROR_MESSAGE : String :=
  "Something went wrong. Please try again."

/-- JavaScript `haystack.includes(needle)`: the needle's character sequence
occurs contiguously in the haystack. -/
def stringIncludes (haystack needle : String) : Bool :=
  decide (needle.toList <:+: haystack.toList)

/-- The units iterated by `fallbackToSingleTransaction`:
`contracts || calls || []` (TransactionProvider.tsx 225). An empty array is
truthy in JavaScript, so a present-but-empty `contracts` wins over `calls`. -/
def submissionUnits (contracts calls : Option (List Nat)) : List Nat :=
  match contracts with
  | some cs => cs
  | none =>
    match calls with
    | some c => c
    | none => []

/-- The `for … await executeSingleTransaction` loop inside
`fallbackToSingleTransaction` (TransactionProvider.tsx 225-227): submit the
units one at a time; an `await` that throws aborts the loop. Returns the
units actually submitted (in order) and the first thrown value, if any. -/
def fallbackAttempts (units : List Nat) (submit : Nat → Except JsThrown String) :
    List Nat × Option JsThrown :=
  match units with
  | [] => ([], none)
  | u :: rest =>
    match submit u with
    | .ok _ =>
      let r := fallbackAttempts rest submit
      (u :: r.1, r.2)
    | .error e => ([u], some e)

/-- The `catch` clause of `fallbackToSingleTransaction`
(TransactionProvider.tsx 228-238): a throw whose `cause?.name` is
`UserRejectedRequestError` sets the "Request denied." message, anything
else the generic message. -/
def classifyFallbackError (e : JsThrown) : String :=
  if e.causeName = some "UserRejectedRequestError" then "Request denied."
  else GENERIC_ERROR_MESSAGE

/-- `fallbackToSingleTransaction` (TransactionProvider.tsx 223-239):
sequential single-unit submission over `contracts || calls || []`,
returning the submitted units and the error message set by the catch
clause, if the loop threw. -/
def fallbackToSingleTransaction (contracts calls : Option (List Nat))
    (submit : Nat → Except JsThrown String) : List Nat × Option String :=
  let r := fallbackAttempts (submissionUnits contracts calls) submit
  (r.1, r.2.map classifyFallbackError)

/-- Outcome of `handleSubmitErrors`: which units the fallback path
submitted (empty when no fallback was attempted) and the error message set
via `setErrorMessage`, if any. -/
structure SubmitErrorResult where
  attempted : List Nat
  errorMessage : Option String
deriving Repr, DecidableEq

/-- `handleSubmitErrors` (TransactionProvider.tsx 276-301), classifying the
batched-submission failure in order: an `Error` instance whose message
contains the unsupported-method substring triggers the single-transaction
fallback; otherwise a `cause?.name` of `UserRejectedRequestError` sets
"Request denied."; otherwise the generic message is set. (The fallback
itself never throws — it catches internally — so the surrounding `try`'s
catch is unreachable.) -/
def handleSubmitErrors (err : JsThrown) (contracts calls : Option (List Nat))
    (submit : Nat → Except JsThrown String) : SubmitErrorResult :=
  if err.isErrorInstance &&
      stringIncludes err.message METHOD_NOT_SUPPORTED_ERROR_SUBSTRING then
    let r := fallbackToSingleTransaction contracts calls submit
    { attempted := r.1, errorMessage := r.2 }
  else if err.causeName = some "UserRejectedRequestError" then
    { attempted := [], errorMessage := some "Request denied." }
  else
    { attempted := [], errorMessage := some GENERIC_ERROR_MESSAGE }

/-! ## TransactionProvider: receipt aggregation

Embeds `getTransactionReceipts` (TransactionProvider.tsx 170-185), the
effect that triggers it (187-195) and the `onSuccess` effect (314-320).
Waiting for one receipt is an oracle `wait : String → Except JsThrown
TransactionReceipt`. -/

/-- Outcome of `getTransactionReceipts`: the aggregated receipts (set via
`setReceiptArray`), one `console.error` log entry per failed fetch, and
whether `setErrorMessage(GENERIC_ERROR_MESSAGE)` was called. -/
structure ReceiptsResult where
  receipts : List TransactionReceipt
  logs : List String
  errorMessageSet : Bool
deriving Repr, DecidableEq

/-- `getTransactionReceipts` (TransactionProvider.tsx 170-185): for each
hash, await the receipt; on success push it, on failure log
`getTransactionReceiptsError` and set the generic error message, then keep
going with the remaining hashes. -/
def getTransactionReceipts (hashes : List String)
    (wait : String → Except JsThrown TransactionReceipt) : ReceiptsResult :=
  match hashes with
  | [] => { receipts := [], logs := [], errorMessageSet := false }
  | h :: rest =>
    let r := getTransactionReceipts rest wait
    match wait h with
    | .ok rc => { r with receipts := rc :: r.receipts }
    | .error _ =>
      { r with
        logs := "getTransactionReceiptsError" :: r.logs
        errorMessageSet := true }

/-- The guard of the aggregation effect (TransactionProvider.tsx 187-195):
`transactionHashArray.length === contracts?.length && contracts?.length > 1`
or the same for `calls`; comparisons against an absent list are false. -/
def shouldAggregateReceipts (hashCount : Nat) (contracts calls : Option (List Nat)) :
    Bool :=
  (match contracts with
   | some cs => hashCount == cs.length && decide (1 < cs.length)
   | none => false) ||
  (match calls with
   | some c => hashCount == c.length && decide (1 < c.length)
   | none => false)

/-- The `onSuccess` effect (TransactionProvider.tsx 314-320): a non-empty
aggregated receipt array is passed whole to `onSuccess`; otherwise a single
awaited receipt, when present, is passed as a one-element array. -/
def onSuccessEffectPayload (receiptArray : List TransactionReceipt)
    (receipt : Option TransactionReceipt) : Option (List TransactionReceipt) :=
  if receiptArray.length ≠ 0 then some receiptArray
  else receipt.map fun r => [r]

/-! ## Swap provider

The swap provider implementation (`SwapProvider.tsx`) is not among the
sources; only its test suite is. Definitions below are modelled from the
spec (sections 4.1-4.3) with concrete values — error codes, mock tokens,
expected formatted amounts — taken from the test suite, which is source
code of this repository and therefore authoritative where it and the
spec's prose disagree. -/

/-- Modelled from the spec/tests: the fixed internal code reported when the
quote-fetch stage throws (`SwapProvider.handleAmountChange` catch clause,
not among the sources; value asserted by the test
"should setLifeCycleStatus to error when getSwapQuote throws an error"). -/
def QUOTE_STAGE_UNCAUGHT_CODE : String := "TmSPc01"

/-- Modelled from the spec/tests: the fixed internal code reported when the
build-transaction stage throws (`SwapProvider.handleSubmit` catch clause,
not among the sources; value asserted by the tests around
"buildSwapTransaction throws"). -/
def BUILD_STAGE_UNCAUGHT_CODE : String := "TmSPc02"

/-- Modelled from the spec/tests: the API-level uncaught code for the quote
endpoint, produced by `getSwapErrorCode` (not among the sources; value
asserted by the test "getSwapQuote returns an error"). -/
def UNCAUGHT_SWAP_QUOTE_ERROR_CODE : String := "UNCAUGHT_SWAP_QUOTE_ERROR"

/-- Modelled from the spec/tests: the API-level uncaught code for the swap
build endpoint, produced by `getSwapErrorCode` (not among the sources;
value asserted by the test "buildSwapTransaction returns an error"). -/
def UNCAUGHT_SWAP_ERROR_CODE : String := "UNCAUGHT_SWAP_ERROR"

/-- The ETH mock token, with the field values the test suite renders into
the expected `amountChange` status. -/
def ETH_TOKEN : Token :=
  { address := ""
    symbol := "ETH"
    name := "ETH"
    chainId := 8453
    decimals := 18
    image :=
      "https://wallet-api-production.s3.amazonaws.com/uploads/tokens/eth_288.png" }

/-- The DEGEN mock token from the test suite. -/
def DEGEN_TOKEN : Token :=
  { address := "0x4ed4e862860bed51a9570b96d89af5e1b0efefed"
    symbol := "DEGEN"
    name := "DEGEN"
    chainId := 8453
    decimals := 18
    image :=
      "https://d3r81g40ycuhqg.cloudfront.net/wallet/wais/3b/bf/3bbf118b5e6dc2f9e7fc607a6e7526647b4ba8f0bea87125f971446d57b296d2-MDNmNjY0MmEtNGFiZi00N2I0LWIwMTItMDUyMzg2ZDZhMWNm" }

/-- A decimal-string amount is numerically zero when every character is a
zero digit or a decimal point and at least one digit occurs (JavaScript
`parseFloat` yields `0` exactly for such strings among well-formed decimal
inputs: "0", "0.0", "00", ".0", …). -/
def isZeroNumericString (s : String) : Bool :=
  let cs := s.toList
  (cs.all fun c => c = '0' || c = '.') && (cs.any fun c => c = '0')

/-- Modelled from the spec: the amount-change guard "amount is empty string
or numerically zero". -/
def amountIsEmptyOrZero (s : String) : Bool :=
  s == "" || isZeroNumericString s

/-- Modelled from the spec/tests: `formatTokenAmount` — the raw integer
quote amount scaled down by `10 ^ decimals` and rendered as JavaScript
renders the resulting number: a plain decimal string for magnitudes of at
least `1e-6`, scientific notation (e.g. `"1e-9"`) below that threshold.
Computed exactly on the decimal digits, with no integer overflow. -/
def formatTokenAmount (amount : Nat) (decimals : Nat) : String :=
  if amount = 0 then "0"
  else
    let ds := (toString amount).toList
    let k := (ds.reverse.takeWhile fun c => c = '0').length
    let ms := ds.take (ds.length - k)
    let L := ms.length
    if decimals ≤ k then
      String.mk (ms ++ List.replicate (k - decimals) '0')
    else
      let f := decimals - k
      if f < L then
        String.mk (ms.take (L - f)) ++ "." ++ String.mk (ms.drop (L - f))
      else if f - L ≤ 5 then
        "0." ++ String.mk (List.replicate (f - L) '0' ++ ms)
      else
        String.mk (ms.take 1) ++
          (if L = 1 then "" else "." ++ String.mk (ms.drop 1)) ++
          "e-" ++ toString (f - L + 1)

/-- Which side of the swap changed: `'from'` or `'to'`. -/
inductive SwapSide where
  | fromSide
  | toSide
deriving Repr, DecidableEq

/-- A successful quote response, as consumed by the amount-change handler:
the raw counter amount (`toAmount`) and the decimal count the response
reports for the counter token (`to.decimals`). -/
structure SwapQuoteSuccess where
  toAmount : Nat
  toDecimals : Nat
deriving Repr, DecidableEq

/-- The three ways the quote fetch can come back: a successful quote, a
structured error payload resolved by the API, or a thrown exception. -/
inductive QuoteOutcome where
  | ok (q : SwapQuoteSuccess)
  | errorResponse (e : SwapErrorData)
  | thrown (e : JsThrown)
deriving Repr, DecidableEq

/-- Modelled from the spec: `isMissingRequiredField` for an `amountChange`
status is computed from the presence of both tokens and both amounts. -/
def computeIsMissingRequiredField (tokenFrom tokenTo : Option Token)
    (amountFrom amountTo : String) : Bool :=
  !(tokenFrom.isSome && tokenTo.isSome &&
    !(amountFrom == "") && !(amountTo == ""))

/-- Observable outcome of one `handleAmountChange` call: whether a quote
fetch happened, the loading flag of the counter side after the call, the
resulting `from`/`to` amounts, and the lifecycle status the call set (if
any). -/
structure AmountChangeRun where
  quoteFetched : Bool
  counterLoadingAfter : Bool
  amountFrom : String
  amountTo : String
  status : Option LifeCycleStatus
deriving Repr, DecidableEq

/-- Modelled from the spec: `SwapProvider.handleAmountChange` (not among
the sources), per spec section 4.2 and the test suite. Arguments follow the
call signature exercised by the tests: the changed side, its new amount,
the changed side's token `sToken` and the counter side's token `dToken`.
A missing token exits early without fetching. An empty-or-zero amount
clears the counter amount, skips the fetch, and sets an `amountChange`
status with `isMissingRequiredField` computed from both tokens and both
amounts. Otherwise the quote is fetched: on success the counter amount is
`formatTokenAmount` of the response's `toAmount` at the response's
`to.decimals` (the tests fix the response's decimal count, not the counter
token's own `decimals` field, as the scale); a thrown fetch yields an
`error` status with the fixed quote-stage code and the stringified
exception; a structured error payload is passed through, substituting the
uncaught quote code when the payload carries no code. -/
def handleAmountChange (side : SwapSide) (amount : String)
    (sToken dToken : Option Token) (quote : QuoteOutcome)
    (stringify : JsThrown → String) : AmountChangeRun :=
  let tokenFrom := if side = SwapSide.fromSide then sToken else dToken
  let tokenTo := if side = SwapSide.fromSide then dToken else sToken
  if sToken.isNone || dToken.isNone then
    { quoteFetched := false
      counterLoadingAfter := false
      amountFrom := ""
      amountTo := ""
      status := none }
  else if amountIsEmptyOrZero amount then
    let aFrom := if side = SwapSide.fromSide then amount else ""
    let aTo := if side = SwapSide.fromSide then "" else amount
    { quoteFetched := false
      counterLoadingAfter := false
      amountFrom := aFrom
      amountTo := aTo
      status := some (.amountChange
        { amountFrom := aFrom
          amountTo := aTo
          isMissingRequiredField :=
            computeIsMissingRequiredField tokenFrom tokenTo aFrom aTo
          tokenFrom := tokenFrom
          tokenTo := tokenTo }) }
  else
    match quote with
    | .ok q =>
      let formatted := formatTokenAmount q.toAmount q.toDecimals
      let aFrom := if side = SwapSide.fromSide then amount else formatted
      let aTo := if side = SwapSide.fromSide then formatted else amount
      { quoteFetched := true
        counterLoadingAfter := false
        amountFrom := aFrom
        amountTo := aTo
        status := some (.amountChange
          { amountFrom := aFrom
            amountTo := aTo
            isMissingRequiredField := false
            tokenFrom := tokenFrom
            tokenTo := tokenTo }) }
    | .errorResponse p =>
      { quoteFetched := true
        counterLoadingAfter := false
        amountFrom := if side = SwapSide.fromSide then amount else ""
        amountTo := if side = SwapSide.fromSide then "" else amount
        status := some (.error
          { code := if p.code == "" then UNCAUGHT_SWAP_QUOTE_ERROR_CODE else p.code
            error := p.error
            message := p.message }) }
    | .thrown e =>
      { quoteFetched := true
        counterLoadingAfter := false
        amountFrom := if side = SwapSide.fromSide then amount else ""
        amountTo := if side = SwapSide.fromSide then "" else amount
        status := some (.error
          { code := QUOTE_STAGE_UNCAUGHT_CODE
            error := stringify e
            message := "" }) }

/-- One side of the swap: its selected token and its amount (decimal
string, default empty). -/
structure SwapUnitState where
  token : Option Token
  amount : String
deriving Repr, DecidableEq

/-- The swap session state visible to `handleSubmit`: the connected
account, both sides, and the lifecycle status. -/
structure SwapState where
  address : Option String
  fromState : SwapUnitState
  toState : SwapUnitState
  lifeCycleStatus : LifeCycleStatus
deriving Repr, DecidableEq

/-- Modelled from the spec: the `handleSubmit` guard — a required field is
missing when a token or an amount is absent on either side, or no account
is connected. -/
def missingSubmitFields (st : SwapState) : Bool :=
  st.address.isNone || st.fromState.token.isNone || st.toState.token.isNone ||
    st.fromState.amount == "" || st.toState.amount == ""

/-- The three ways the build-transaction step can come back: a built
transaction payload, a structured error payload, or a thrown exception. -/
inductive BuildOutcome where
  | ok (txn : String)
  | errorResponse (e : SwapErrorData)
  | thrown (e : JsThrown)
deriving Repr, DecidableEq

/-- Externally visible steps taken by the swap `handleSubmit`. -/
inductive SubmitEvent where
  | buildCalled
  | processSwapTransaction (txn : String)
deriving Repr, DecidableEq

/-- Modelled from the spec: `SwapProvider.handleSubmit` (not among the
sources), per spec section 4.3 and the test suite. If a required field is
missing the call does nothing: no status change, no error, no build
attempt. Otherwise the session goes pending and the swap transaction is
built: a thrown build yields an `error` status with the fixed build-stage
code and the stringified exception; a structured error payload is passed
through, substituting the uncaught swap code when the payload carries no
code; a built transaction is handed to `processSwapTransaction`. -/
def swapHandleSubmit (st : SwapState) (build : BuildOutcome)
    (stringify : JsThrown → String) : SwapState × List SubmitEvent :=
  if missingSubmitFields st then (st, [])
  else
    match build with
    | .ok t =>
      ({ st with lifeCycleStatus := .transactionPending },
        [.buildCalled, .processSwapTransaction t])
    | .errorResponse p =>
      let errStatus := LifeCycleStatus.error
        ⟨if p.code == "" then UNCAUGHT_SWAP_ERROR_CODE else p.code,
          p.error, p.message⟩
      ({ st with lifeCycleStatus := errStatus }, [.buildCalled])
    | .thrown e =>
      let errStatus := LifeCycleStatus.error
        ⟨BUILD_STAGE_UNCAUGHT_CODE, stringify e, ""⟩
      ({ st with lifeCycleStatus := errStatus }, [.buildCalled])

/-! ## Swap provider: lifecycle emitter and success reset -/

/-- A host-visible event of the swap provider: the three lifecycle
callbacks plus the external "reset inputs" side effect. -/
inductive SwapCallbackEvent where
  | emitError (d : SwapErrorData)
  | emitStatus (s : LifeCycleStatus)
  | emitSuccess (receipts : List String)
  | resetInputs
deriving Repr, DecidableEq

/-- Modelled from the spec: one run of the swap provider's lifecycle
emitter effect for status `s` (SwapProvider is not among the sources; spec
section 4.1 and the success/reset tests fix the behaviour). On `error` the
error callback fires with the payload before the status callback; on
`success` the success callback fires with the accumulated outcome, the
"reset inputs" side effect runs, the status callback fires, and the status
is scheduled to reset to `init` with `isMissingRequiredField := false`;
every other status only fires the status callback. -/
def swapEmitterStep (s : LifeCycleStatus) :
    List SwapCallbackEvent × Option LifeCycleStatus :=
  match s with
  | .error d => ([.emitError d, .emitStatus s], none)
  | .success r => ([.emitSuccess r, .resetInputs, .emitStatus s], some (.init false))
  | _ => ([.emitStatus s], none)

/-- All events observed from entering status `s`: the emitter run for `s`
followed by the emitter run for the follow-up status it scheduled, if
any. -/
def swapEnterStatus (s : LifeCycleStatus) : List SwapCallbackEvent :=
  match swapEmitterStep s with
  | (evs, none) => evs
  | (evs, some s2) => evs ++ (swapEmitterStep s2).1

def countSwapResetInputs (evs : List SwapCallbackEvent) : Nat :=
  (evs.filter fun e => match e with | .resetInputs => true | _ => false).length

def countSwapStatusIs (evs : List SwapCallbackEvent) (s : LifeCycleStatus) : Nat :=
  (evs.filter fun e => match e with | .emitStatus s2 => s2 == s | _ => false).length

/-! ## Context accessors

Embeds `useTransactionContext` (TransactionProvider.tsx 46-54): outside a
provider, `useContext` hands back the module-level `emptyContext` sentinel
and the accessor throws; inside, the provider supplies a freshly built
value object distinct from the sentinel and the accessor returns it. The
analogous `useSwapContext` is not among the sources; its behaviour and
throw message are fixed by the test suite. -/

/-- The value `useContext` observes: the default sentinel (`emptyContext`,
no provider above) or a value supplied by an enclosing provider. -/
inductive ReactContext (α : Type) where
  | defaultEmpty
  | provided (value : α)
deriving Repr, DecidableEq

/-- `useTransactionContext` (TransactionProvider.tsx 46-54): throw when the
observed context is the `emptyContext` sentinel, otherwise return the
provider's value. -/
def useTransactionContext {α : Type} (ctx : ReactContext α) : Except String α :=
  match ctx with
  | .defaultEmpty =>
    .error "useTransactionContext must be used within a Transaction component"
  | .provided v => .ok v

/-- Modelled from the spec/tests: `useSwapContext` (not among the sources)
behaves analogously, with the throw message asserted by the test "should
throw an error when used outside of SwapProvider". -/
def useSwapContext {α : Type} (ctx : ReactContext α) : Except String α :=
  match ctx with
  | .defaultEmpty =>
    .error "useSwapContext must be used within a Swap component"
  | .provided v => .ok v

/-! ## Helper lemmas -/

/-- When every unit submits successfully, the fallback loop runs to the end
and nothing is thrown. -/
theorem fallbackAttempts_all_ok (units : List Nat)
    (submit : Nat → Except JsThrown String)
    (h : ∀ u ∈ units, (submit u).isOk = true) :
    fallbackAttempts units submit = (units, none) := by
  induction units with
  | nil => rfl
  | cons u rest ih =>
    have hu : (submit u).isOk = true := h u (List.mem_cons_self u rest)
    cases hsub : submit u with
    | ok v =>
      have hrest : ∀ v ∈ rest, (submit v).isOk = true := by
        intro v hv
        exact h v (List.mem_cons_of_mem u hv)
      simp [fallbackAttempts, hsub, ih hrest]
    | error e =>
      rw [hsub] at hu
      simp [Except.isOk, Except.toBool] at hu

/-- When a prefix submits successfully and the next unit throws, the
fallback loop stops right after that unit. -/
theorem fallbackAttempts_stops_at_failure (pre : List Nat) (u : Nat)
    (post : List Nat) (e : JsThrown) (submit : Nat → Except JsThrown String)
    (hpre : ∀ v ∈ pre, (submit v).isOk = true) (hu : submit u = .error e) :
    fallbackAttempts (pre ++ u :: post) submit = (pre ++ [u], some e) := by
  induction pre with
  | nil => simp [fallbackAttempts, hu]
  | cons v rest ih =>
    have hv : (submit v).isOk = true := hpre v (List.mem_cons_self v rest)
    cases hsub : submit v with
    | ok w =>
      have hrest : ∀ x ∈ rest, (submit x).isOk = true := by
        intro x hx
        exact hpre x (List.mem_cons_of_mem v hx)
      simp [fallbackAttempts, hsub, ih hrest]
    | error e2 =>
      rw [hsub] at hv
      simp [Except.isOk, Except.toBool] at hv

/-- The aggregated receipts are exactly the successful fetches, in order. -/
theorem getTransactionReceipts_receipts (hashes : List String)
    (wait : String → Except JsThrown TransactionReceipt) :
    (getTransactionReceipts hashes wait).receipts =
      hashes.filterMap fun h => (wait h).toOption := by
  induction hashes with
  | nil => rfl
  | cons h rest ih =>
    cases hw : wait h with
    | ok rc => simp [getTransactionReceipts, hw, ih, Except.toOption]
    | error e => simp [getTransactionReceipts, hw, ih, Except.toOption]

/-- One log entry is produced per failed receipt fetch. -/
theorem getTransactionReceipts_logs (hashes : List String)
    (wait : String → Except JsThrown TransactionReceipt) :
    (getTransactionReceipts hashes wait).logs.length =
      (hashes.filter fun h => !(wait h).isOk).length := by
  induction hashes with
  | nil => rfl
  | cons h rest ih =>
    cases hw : wait h with
    | ok rc =>
      simp [getTransactionReceipts, hw, ih, Except.isOk, Except.toBool,
        List.filter_cons]
    | error e =>
      simp [getTransactionReceipts, hw, ih, Except.isOk, Except.toBool,
        List.filter_cons]

/-! ## Claims -/

/-- C1: every transition of the lifecycle status into the `error` variant
invokes the error callback with the error payload first and then the status
callback with the same status, exactly once each per triggering event, and
never invokes the success callback for that event. -/
theorem error_transition_callback_order (st : ProviderState) (r : StatusRef)
    (d : SwapErrorData) (href : r.refId ≠ st.status.refId)
    (hval : r.val = LifeCycleStatus.error d) :
    (applySetLifeCycleStatus st r).2 =
      [CallbackEvent.onError d, CallbackEvent.onStatus (LifeCycleStatus.error d)] ∧
    countOnError (applySetLifeCycleStatus st r).2 = 1 ∧
    countOnStatus (applySetLifeCycleStatus st r).2 = 1 ∧
    countOnSuccess (applySetLifeCycleStatus st r).2 = 0 := by
  simp [applySetLifeCycleStatus, href, hval, lifecycleEmitterEffect,
    countOnError, countOnStatus, countOnSuccess]

theorem error_transition_callback_order_witness :
    (applySetLifeCycleStatus ⟨⟨0, LifeCycleStatus.init true⟩⟩
        ⟨1, LifeCycleStatus.error ⟨"code", "error_long_messages", ""⟩⟩).2 =
      [CallbackEvent.onError ⟨"code", "error_long_messages", ""⟩,
        CallbackEvent.onStatus (LifeCycleStatus.error
          ⟨"code", "error_long_messages", ""⟩)] ∧
    countOnError (applySetLifeCycleStatus ⟨⟨0, LifeCycleStatus.init true⟩⟩
        ⟨1, LifeCycleStatus.error ⟨"code", "error_long_messages", ""⟩⟩).2 = 1 ∧
    countOnStatus (applySetLifeCycleStatus ⟨⟨0, LifeCycleStatus.init true⟩⟩
        ⟨1, LifeCycleStatus.error ⟨"code", "error_long_messages", ""⟩⟩).2 = 1 ∧
    countOnSuccess (applySetLifeCycleStatus ⟨⟨0, LifeCycleStatus.init true⟩⟩
        ⟨1, LifeCycleStatus.error ⟨"code", "error_long_messages", ""⟩⟩).2 = 0 :=
  error_transition_callback_order ⟨⟨0, LifeCycleStatus.init true⟩⟩
    ⟨1, LifeCycleStatus.error ⟨"code", "error_long_messages", ""⟩⟩
    ⟨"code", "error_long_messages", ""⟩ (by decide) rfl

/-- C2: every transition into `success` invokes the success callback with
the accumulated outcome, then performs exactly one "reset inputs" side
effect and exactly one status transition back to `init` with
`isMissingRequiredField := false`, observed via the status callback. -/
theorem success_transition_resets_to_init (r : List String) :
    swapEnterStatus (LifeCycleStatus.success r) =
      [SwapCallbackEvent.emitSuccess r, SwapCallbackEvent.resetInputs,
        SwapCallbackEvent.emitStatus (LifeCycleStatus.success r),
        SwapCallbackEvent.emitStatus (LifeCycleStatus.init false)] ∧
    countSwapResetInputs (swapEnterStatus (LifeCycleStatus.success r)) = 1 ∧
    countSwapStatusIs (swapEnterStatus (LifeCycleStatus.success r))
      (LifeCycleStatus.init false) = 1 ∧
    (swapEnterStatus (LifeCycleStatus.success r)).head? =
      some (SwapCallbackEvent.emitSuccess r) := by
  refine ⟨rfl, rfl, ?_, rfl⟩
  simp [swapEnterStatus, swapEmitterStep, countSwapStatusIs]

/-- C3: the batched-submission failure is classified in order: an `Error`
whose message contains the known unsupported-method substring triggers the
sequential single-unit fallback, which submits the entries one at a time
continuing only while each submission succeeds; otherwise a cause name
signalling explicit user rejection sets the "request denied" text with no
fallback attempted; otherwise the generic failure message is set. -/
theorem handleSubmitErrors_classification (err : JsThrown)
    (contracts calls : Option (List Nat))
    (submit : Nat → Except JsThrown String) :
    ((err.isErrorInstance &&
        stringIncludes err.message METHOD_NOT_SUPPORTED_ERROR_SUBSTRING) = true →
      ((∀ u ∈ submissionUnits contracts calls, (submit u).isOk = true) →
        (handleSubmitErrors err contracts calls submit).attempted =
          submissionUnits contracts calls ∧
        (handleSubmitErrors err contracts calls submit).errorMessage = none) ∧
      (∀ pre u post e, submissionUnits contracts calls = pre ++ u :: post →
        (∀ v ∈ pre, (submit v).isOk = true) → submit u = Except.error e →
        (handleSubmitErrors err contracts calls submit).attempted = pre ++ [u] ∧
        (handleSubmitErrors err contracts calls submit).errorMessage =
          some (classifyFallbackError e))) ∧
    ((err.isErrorInstance &&
        stringIncludes err.message METHOD_NOT_SUPPORTED_ERROR_SUBSTRING) = false →
      err.causeName = some "UserRejectedRequestError" →
      (handleSubmitErrors err contracts calls submit).attempted = [] ∧
      (handleSubmitErrors err contracts calls submit).errorMessage =
        some "Request denied.") ∧
    ((err.isErrorInstance &&
        stringIncludes err.message METHOD_NOT_SUPPORTED_ERROR_SUBSTRING) = false →
      err.causeName ≠ some "UserRejectedRequestError" →
      (handleSubmitErrors err contracts calls submit).attempted = [] ∧
      (handleSubmitErrors err contracts calls submit).errorMessage =
        some GENERIC_ERROR_MESSAGE) := by
  refine ⟨fun hcase => ⟨fun hok => ?_, fun pre u post e hsplit hpre hu => ?_⟩,
    fun hcase hrej => ?_, fun hcase hrej => ?_⟩
  · have := fallbackAttempts_all_ok (submissionUnits contracts calls) submit hok
    simp [handleSubmitErrors, hcase, fallbackToSingleTransaction, this]
  · have := fallbackAttempts_stops_at_failure pre u post e submit hpre hu
    rw [← hsplit] at this
    simp [handleSubmitErrors, hcase, fallbackToSingleTransaction, this]
  · simp [handleSubmitErrors, hcase, hrej]
  · simp [handleSubmitErrors, hcase, hrej]

/-- Concrete thrown value for exercising the unsupported-method branch. -/
def sampleMethodNotSupportedError : JsThrown :=
  ⟨true, "xx this request method is not supported yy", none⟩

/-- Concrete thrown value for exercising user rejection inside the
fallback loop. -/
def sampleRejection : JsThrown :=
  ⟨false, "boom", some "UserRejectedRequestError"⟩

/-- Concrete submission oracle: unit 7 is rejected, everything else
succeeds. -/
def sampleSubmit : Nat → Except JsThrown String := fun u =>
  if u = 7 then Except.error sampleRejection else Except.ok "0xhash"

theorem handleSubmitErrors_classification_witness :
    (sampleMethodNotSupportedError.isErrorInstance &&
      stringIncludes sampleMethodNotSupportedError.message
        METHOD_NOT_SUPPORTED_ERROR_SUBSTRING) = true ∧
    submissionUnits (some [7, 8]) none = [] ++ 7 :: [8] ∧
    sampleSubmit 7 = Except.error sampleRejection ∧
    (handleSubmitErrors sampleMethodNotSupportedError
        (some [7, 8]) none sampleSubmit).attempted = [] ++ [7] ∧
    (handleSubmitErrors sampleMethodNotSupportedError
        (some [7, 8]) none sampleSubmit).errorMessage =
      some (classifyFallbackError sampleRejection) := by
  refine ⟨by decide, by decide, by rfl, ?_, ?_⟩
  · exact (((handleSubmitErrors_classification sampleMethodNotSupportedError
      (some [7, 8]) none sampleSubmit).1 (by decide)).2
      [] 7 [8] sampleRejection (by decide)
      (by intro v hv; simp at hv) (by rfl)).1
  · exact (((handleSubmitErrors_classification sampleMethodNotSupportedError
      (some [7, 8]) none sampleSubmit).1 (by decide)).2
      [] 7 [8] sampleRejection (by decide)
      (by intro v hv; simp at hv) (by rfl)).2

/-- C4: invoking `handleSubmit` while a required field is missing (token or
amount on either side, or no connected account) is a no-op: the session
state is unchanged and no step is taken, no error surfaced. -/
theorem handleSubmit_missing_fields_noop (st : SwapState)
    (build : BuildOutcome) (stringify : JsThrown → String)
    (h : missingSubmitFields st = true) :
    swapHandleSubmit st build stringify = (st, []) := by
  simp [swapHandleSubmit, h]

theorem handleSubmit_missing_fields_noop_witness :
    swapHandleSubmit
      ⟨some "0x123", ⟨none, ""⟩, ⟨none, ""⟩, LifeCycleStatus.init true⟩
      (BuildOutcome.ok "txn") (fun _ => "") =
    (⟨some "0x123", ⟨none, ""⟩, ⟨none, ""⟩, LifeCycleStatus.init true⟩, []) :=
  handleSubmit_missing_fields_noop
    ⟨some "0x123", ⟨none, ""⟩, ⟨none, ""⟩, LifeCycleStatus.init true⟩
    (BuildOutcome.ok "txn") (fun _ => "") (by decide)

/-- C5: when the accumulated transaction-hash count equals the number of
submitted units and more than one unit was submitted, the aggregation
effect fires, every hash's receipt is fetched individually, the aggregate
is exactly the successful fetches in order, each failed fetch contributes
one log entry without aborting the aggregation, and a non-empty aggregate
is delivered whole to the success callback. -/
theorem receipt_aggregation_on_full_hash_count (hashes : List String)
    (units : List Nat) (wait : String → Except JsThrown TransactionReceipt)
    (rcpt : Option TransactionReceipt)
    (hlen : hashes.length = units.length) (hgt : 1 < units.length) :
    shouldAggregateReceipts hashes.length (some units) none = true ∧
    (getTransactionReceipts hashes wait).receipts =
      (hashes.filterMap fun h => (wait h).toOption) ∧
    (getTransactionReceipts hashes wait).logs.length =
      (hashes.filter fun h => !(wait h).isOk).length ∧
    ((getTransactionReceipts hashes wait).receipts ≠ [] →
      onSuccessEffectPayload (getTransactionReceipts hashes wait).receipts rcpt =
        some (getTransactionReceipts hashes wait).receipts) := by
  refine ⟨?_, getTransactionReceipts_receipts hashes wait,
    getTransactionReceipts_logs hashes wait, ?_⟩
  · simp [shouldAggregateReceipts, hlen, hgt]
  · intro hne
    simp [onSuccessEffectPayload, List.length_eq_zero, hne]

/-- Concrete receipt oracle: hash "0xb" fails, everything else resolves. -/
def sampleWaitForReceipt : String → Except JsThrown TransactionReceipt :=
  fun h =>
    if h = "0xb" then Except.error ⟨true, "network down", none⟩
    else Except.ok ⟨h ++ "-receipt"⟩

theorem receipt_aggregation_on_full_hash_count_witness :
    (["0xa", "0xb"] : List String).length = ([1, 2] : List Nat).length ∧
    1 < ([1, 2] : List Nat).length ∧
    (shouldAggregateReceipts (["0xa", "0xb"] : List String).length
        (some [1, 2]) none = true ∧
      (getTransactionReceipts ["0xa", "0xb"] sampleWaitForReceipt).receipts =
        (["0xa", "0xb"].filterMap fun h => (sampleWaitForReceipt h).toOption) ∧
      (getTransactionReceipts ["0xa", "0xb"] sampleWaitForReceipt).logs.length =
        (["0xa", "0xb"].filter fun h => !(sampleWaitForReceipt h).isOk).length ∧
      ((getTransactionReceipts ["0xa", "0xb"] sampleWaitForReceipt).receipts ≠ [] →
        onSuccessEffectPayload
          (getTransactionReceipts ["0xa", "0xb"] sampleWaitForReceipt).receipts
          none =
        some (getTransactionReceipts ["0xa", "0xb"] sampleWaitForReceipt).receipts)) :=
  ⟨by decide, by decide,
    receipt_aggregation_on_full_hash_count ["0xa", "0xb"] [1, 2]
      sampleWaitForReceipt none (by decide) (by decide)⟩

/-- C6: a thrown exception during the quote fetch yields an `error` status
with the fixed quote-stage internal code and the stringified exception as
its `error` field; a thrown exception during the build-transaction stage
yields an `error` status with the fixed build-stage internal code; the two
fixed codes are distinct from each other and from the API-reported uncaught
codes. -/
theorem stage_error_codes_distinct (e e2 : JsThrown)
    (stringify : JsThrown → String) (st : SwapState) (side : SwapSide)
    (amount : String) (sT dT : Token)
    (hamt : amountIsEmptyOrZero amount = false)
    (hmiss : missingSubmitFields st = false) :
    (handleAmountChange side amount (some sT) (some dT)
        (QuoteOutcome.thrown e) stringify).status =
      some (LifeCycleStatus.error
        ⟨QUOTE_STAGE_UNCAUGHT_CODE, stringify e, ""⟩) ∧
    (swapHandleSubmit st (BuildOutcome.thrown e2) stringify).1.lifeCycleStatus =
      LifeCycleStatus.error ⟨BUILD_STAGE_UNCAUGHT_CODE, stringify e2, ""⟩ ∧
    QUOTE_STAGE_UNCAUGHT_CODE ≠ BUILD_STAGE_UNCAUGHT_CODE ∧
    QUOTE_STAGE_UNCAUGHT_CODE ≠ UNCAUGHT_SWAP_QUOTE_ERROR_CODE ∧
    QUOTE_STAGE_UNCAUGHT_CODE ≠ UNCAUGHT_SWAP_ERROR_CODE ∧
    BUILD_STAGE_UNCAUGHT_CODE ≠ UNCAUGHT_SWAP_QUOTE_ERROR_CODE ∧
    BUILD_STAGE_UNCAUGHT_CODE ≠ UNCAUGHT_SWAP_ERROR_CODE := by
  refine ⟨?_, ?_, by decide, by decide, by decide, by decide, by decide⟩
  · simp [handleAmountChange, hamt]
  · simp [swapHandleSubmit, hmiss]

/-- Concrete stringifier standing in for `JSON.stringify` on a thrown
value. -/
def sampleStringify : JsThrown → String := fun e => "stringified:" ++ e.message

/-- A concrete swap state with every required field present. -/
def sampleReadySwapState : SwapState :=
  ⟨some "0x123", ⟨some ETH_TOKEN, "100"⟩, ⟨some DEGEN_TOKEN, "1e-9"⟩,
    LifeCycleStatus.init false⟩

theorem stage_error_codes_distinct_witness :
    amountIsEmptyOrZero "10" = false ∧
    missingSubmitFields sampleReadySwapState = false ∧
    ((handleAmountChange SwapSide.fromSide "10" (some ETH_TOKEN)
        (some DEGEN_TOKEN) (QuoteOutcome.thrown ⟨true, "Test error", none⟩)
        sampleStringify).status =
      some (LifeCycleStatus.error
        ⟨QUOTE_STAGE_UNCAUGHT_CODE,
          sampleStringify ⟨true, "Test error", none⟩, ""⟩) ∧
    (swapHandleSubmit sampleReadySwapState
        (BuildOutcome.thrown ⟨true, "User rejected the request.", none⟩)
        sampleStringify).1.lifeCycleStatus =
      LifeCycleStatus.error
        ⟨BUILD_STAGE_UNCAUGHT_CODE,
          sampleStringify ⟨true, "User rejected the request.", none⟩, ""⟩ ∧
    QUOTE_STAGE_UNCAUGHT_CODE ≠ BUILD_STAGE_UNCAUGHT_CODE ∧
    QUOTE_STAGE_UNCAUGHT_CODE ≠ UNCAUGHT_SWAP_QUOTE_ERROR_CODE ∧
    QUOTE_STAGE_UNCAUGHT_CODE ≠ UNCAUGHT_SWAP_ERROR_CODE ∧
    BUILD_STAGE_UNCAUGHT_CODE ≠ UNCAUGHT_SWAP_QUOTE_ERROR_CODE ∧
    BUILD_STAGE_UNCAUGHT_CODE ≠ UNCAUGHT_SWAP_ERROR_CODE) :=
  ⟨by decide, by decide,
    stage_error_codes_distinct ⟨true, "Test error", none⟩
      ⟨true, "User rejected the request.", none⟩ sampleStringify
      sampleReadySwapState SwapSide.fromSide "10" ETH_TOKEN DEGEN_TOKEN
      (by decide) (by decide)⟩

/-- C7: calling `handleAmountChange` with both tokens supplied and an
amount that is the empty string or numerically zero performs no quote
fetch, sets the counter-side amount to the empty string, and sets an
`amountChange` status whose `isMissingRequiredField` is computed from the
presence of both tokens and both amounts. -/
theorem amount_change_empty_or_zero_skips_quote (side : SwapSide)
    (amount : String) (sT dT : Token) (quote : QuoteOutcome)
    (stringify : JsThrown → String)
    (h : amountIsEmptyOrZero amount = true) :
    (handleAmountChange side amount (some sT) (some dT) quote
        stringify).quoteFetched = false ∧
    (if side = SwapSide.fromSide
      then (handleAmountChange side amount (some sT) (some dT) quote
        stringify).amountTo
      else (handleAmountChange side amount (some sT) (some dT) quote
        stringify).amountFrom) = "" ∧
    (handleAmountChange side amount (some sT) (some dT) quote
        stringify).status =
      some (LifeCycleStatus.amountChange
        ⟨if side = SwapSide.fromSide then amount else "",
          if side = SwapSide.fromSide then "" else amount,
          computeIsMissingRequiredField
            (some (if side = SwapSide.fromSide then sT else dT))
            (some (if side = SwapSide.fromSide then dT else sT))
            (if side = SwapSide.fromSide then amount else "")
            (if side = SwapSide.fromSide then "" else amount),
          some (if side = SwapSide.fromSide then sT else dT),
          some (if side = SwapSide.fromSide then dT else sT)⟩) ∧
    computeIsMissingRequiredField
      (some (if side = SwapSide.fromSide then sT else dT))
      (some (if side = SwapSide.fromSide then dT else sT))
      (if side = SwapSide.fromSide then amount else "")
      (if side = SwapSide.fromSide then "" else amount) = true := by
  cases side <;>
    simp [handleAmountChange, h, computeIsMissingRequiredField]

theorem amount_change_empty_or_zero_skips_quote_witness :
    amountIsEmptyOrZero "0" = true ∧
    ((handleAmountChange SwapSide.fromSide "0" (some ETH_TOKEN)
        (some DEGEN_TOKEN) (QuoteOutcome.ok ⟨10, 10⟩)
        sampleStringify).quoteFetched = false ∧
    (if SwapSide.fromSide = SwapSide.fromSide
      then (handleAmountChange SwapSide.fromSide "0" (some ETH_TOKEN)
        (some DEGEN_TOKEN) (QuoteOutcome.ok ⟨10, 10⟩)
        sampleStringify).amountTo
      else (handleAmountChange SwapSide.fromSide "0" (some ETH_TOKEN)
        (some DEGEN_TOKEN) (QuoteOutcome.ok ⟨10, 10⟩)
        sampleStringify).amountFrom) = "" ∧
    (handleAmountChange SwapSide.fromSide "0" (some ETH_TOKEN)
        (some DEGEN_TOKEN) (QuoteOutcome.ok ⟨10, 10⟩)
        sampleStringify).status =
      some (LifeCycleStatus.amountChange
        ⟨if SwapSide.fromSide = SwapSide.fromSide then "0" else "",
          if SwapSide.fromSide = SwapSide.fromSide then "" else "0",
          computeIsMissingRequiredField
            (some (if SwapSide.fromSide = SwapSide.fromSide
              then ETH_TOKEN else DEGEN_TOKEN))
            (some (if SwapSide.fromSide = SwapSide.fromSide
              then DEGEN_TOKEN else ETH_TOKEN))
            (if SwapSide.fromSide = SwapSide.fromSide then "0" else "")
            (if SwapSide.fromSide = SwapSide.fromSide then "" else "0"),
          some (if SwapSide.fromSide = SwapSide.fromSide
            then ETH_TOKEN else DEGEN_TOKEN),
          some (if SwapSide.fromSide = SwapSide.fromSide
            then DEGEN_TOKEN else ETH_TOKEN)⟩) ∧
    computeIsMissingRequiredField
      (some (if SwapSide.fromSide = SwapSide.fromSide
        then ETH_TOKEN else DEGEN_TOKEN))
      (some (if SwapSide.fromSide = SwapSide.fromSide
        then DEGEN_TOKEN else ETH_TOKEN))
      (if SwapSide.fromSide = SwapSide.fromSide then "0" else "")
      (if SwapSide.fromSide = SwapSide.fromSide then "" else "0") = true) :=
  ⟨by decide,
    amount_change_empty_or_zero_skips_quote SwapSide.fromSide "0"
      ETH_TOKEN DEGEN_TOKEN (QuoteOutcome.ok ⟨10, 10⟩) sampleStringify
      (by decide)⟩

/-- C8 counterexample: the claim fixes the conversion scale to the counter
token's own decimal count and asserts that a raw quote of 10 units against
18 decimals formats as "1e-9". Exactly scaled, 10 units at 18 decimals is
1e-17, and in the quote scenario of the test suite (counter token DEGEN
with 18 decimals, quote response reporting 10 decimals) the handler
produces "1e-9" — the scale of the response, not of the counter token. -/
theorem quote_conversion_decimals_counterexample :
    formatTokenAmount 10 18 = "1e-17" ∧
    ("1e-17" : String) ≠ "1e-9" ∧
    (handleAmountChange SwapSide.fromSide "10" (some ETH_TOKEN)
        (some DEGEN_TOKEN) (QuoteOutcome.ok ⟨10, 10⟩)
        sampleStringify).amountTo = "1e-9" ∧
    (handleAmountChange SwapSide.fromSide "10" (some ETH_TOKEN)
        (some DEGEN_TOKEN) (QuoteOutcome.ok ⟨10, 10⟩)
        sampleStringify).amountTo ≠
      formatTokenAmount 10 DEGEN_TOKEN.decimals := by
  refine ⟨by decide, by decide, by decide, by decide⟩

/-- C8 (amended): on a successful quote fetch the returned raw amount is
converted, exactly and without integer overflow, using the decimal count
reported in the quote response, with very small results rendered in
scientific notation — a raw quote of 10 units at 10 reported decimals
formats as "1e-9". -/
theorem quote_conversion_uses_response_decimals (side : SwapSide)
    (amount : String) (sT dT : Token) (q : SwapQuoteSuccess)
    (stringify : JsThrown → String)
    (h : amountIsEmptyOrZero amount = false) :
    (if side = SwapSide.fromSide
      then (handleAmountChange side amount (some sT) (some dT)
        (QuoteOutcome.ok q) stringify).amountTo
      else (handleAmountChange side amount (some sT) (some dT)
        (QuoteOutcome.ok q) stringify).amountFrom) =
      formatTokenAmount q.toAmount q.toDecimals ∧
    formatTokenAmount 10 10 = "1e-9" := by
  cases side <;> simp [handleAmountChange, h] <;> decide

theorem quote_conversion_uses_response_decimals_witness :
    amountIsEmptyOrZero "10" = false ∧
    ((if SwapSide.fromSide = SwapSide.fromSide
      then (handleAmountChange SwapSide.fromSide "10" (some ETH_TOKEN)
        (some DEGEN_TOKEN) (QuoteOutcome.ok ⟨10, 10⟩)
        sampleStringify).amountTo
      else (handleAmountChange SwapSide.fromSide "10" (some ETH_TOKEN)
        (some DEGEN_TOKEN) (QuoteOutcome.ok ⟨10, 10⟩)
        sampleStringify).amountFrom) =
      formatTokenAmount (SwapQuoteSuccess.toAmount ⟨10, 10⟩)
        (SwapQuoteSuccess.toDecimals ⟨10, 10⟩) ∧
    formatTokenAmount 10 10 = "1e-9") :=
  ⟨by decide,
    quote_conversion_uses_response_decimals SwapSide.fromSide "10"
      ETH_TOKEN DEGEN_TOKEN ⟨10, 10⟩ sampleStringify (by decide)⟩

/-- C9 counterexample: calling the status-setter twice in succession with
the very same status object does not produce two status-callback
invocations. React compares the new state and the effect dependencies with
`Object.is`, so the second call with the identical object bails out and the
emitter effect runs only once: one invocation, not two. -/
theorem status_setter_same_object_counterexample :
    countOnStatus (runSetCalls ⟨⟨0, LifeCycleStatus.init true⟩⟩
      [⟨1, LifeCycleStatus.transactionPending⟩,
        ⟨1, LifeCycleStatus.transactionPending⟩]).2 = 1 ∧
    countOnStatus (runSetCalls ⟨⟨0, LifeCycleStatus.init true⟩⟩
      [⟨1, LifeCycleStatus.transactionPending⟩,
        ⟨1, LifeCycleStatus.transactionPending⟩]).2 ≠ 2 := by
  refine ⟨by decide, by decide⟩

/-- C9 (amended): calling the status-setter twice in succession with two
referentially distinct status objects carrying the same status value
produces two status-callback invocations — callbacks are not structurally
de-duplicated or debounced — while calling it twice with the identical
object reference produces a single invocation, coalesced by React's
`Object.is` bailout. -/
theorem status_setter_two_distinct_objects_two_invocations
    (st : ProviderState) (r1 r2 : StatusRef) (s : LifeCycleStatus)
    (h0 : r1.refId ≠ st.status.refId) (h1 : r2.refId ≠ r1.refId)
    (hv1 : r1.val = s) (hv2 : r2.val = s) :
    countOnStatus (runSetCalls st [r1, r2]).2 = 2 ∧
    countOnStatus (runSetCalls st [r1, r1]).2 = 1 := by
  constructor
  · simp [runSetCalls, applySetLifeCycleStatus, h0, h1,
      lifecycleEmitterEffect, countOnStatus, hv1, hv2]
    cases s <;> simp
  · simp [runSetCalls, applySetLifeCycleStatus, h0,
      lifecycleEmitterEffect, countOnStatus, hv1]
    cases s <;> simp

theorem status_setter_two_distinct_objects_two_invocations_witness :
    (1 : Nat) ≠ 0 ∧ (2 : Nat) ≠ 1 ∧
    (countOnStatus (runSetCalls ⟨⟨0, LifeCycleStatus.init true⟩⟩
        [⟨1, LifeCycleStatus.transactionPending⟩,
          ⟨2, LifeCycleStatus.transactionPending⟩]).2 = 2 ∧
      countOnStatus (runSetCalls ⟨⟨0, LifeCycleStatus.init true⟩⟩
        [⟨1, LifeCycleStatus.transactionPending⟩,
          ⟨1, LifeCycleStatus.transactionPending⟩]).2 = 1) :=
  ⟨by decide, by decide,
    status_setter_two_distinct_objects_two_invocations
      ⟨⟨0, LifeCycleStatus.init true⟩⟩
      ⟨1, LifeCycleStatus.transactionPending⟩
      ⟨2, LifeCycleStatus.transactionPending⟩
      LifeCycleStatus.transactionPending
      (by decide) (by decide) rfl rfl⟩

/-- C10: the context accessors throw a "must be used within" error when
rendered outside their owning provider (the observed context is the module
sentinel) and return the provider's value unchanged when rendered inside
it. -/
theorem context_accessors_guard {α : Type} (v : α) :
    useTransactionContext (ReactContext.defaultEmpty : ReactContext α) =
      Except.error
        "useTransactionContext must be used within a Transaction component" ∧
    useTransactionContext (ReactContext.provided v) = Except.ok v ∧
    useSwapContext (ReactContext.defaultEmpty : ReactContext α) =
      Except.error "useSwapContext must be used within a Swap component" ∧
    useSwapContext (ReactContext.provided v) = Except.ok v :=
  ⟨rfl, rfl, rfl, rfl⟩

end OnchainKit
